import Mathlib

/-!
# Verification of the tfjs-layers wrapper layers (`wrappers.ts`)

A shallow embedding of the `Wrapper`, `TimeDistributed` and `Bidirectional`
layer classes.  Pure computations of the TypeScript source become Lean
functions; mutation of `this` becomes explicit state passing; thrown
exceptions become `Except`/`Option` results.  Tensor shapes
(`Array<number|null>` in the source) are embedded as `List (Option Int)`,
`null` being `none`.  External collaborators that the source file merely
calls (the generic `Layer` base class, `deserialize`, the string-union
validator) are embedded from the specification's description of them;
their doc comments say so explicitly.
-/

namespace Tfjs

/-- A tensor shape: `Array<number|null>` in the source, `null` = unresolved
batch dimension. -/
abbrev Shape := List (Option Int)

/-! ## Configuration dictionaries and `getConfig` merging

`Wrapper.getConfig` builds `{'layer': {...}}`, then does
`Object.assign(config, baseConfig)`; `Bidirectional.getConfig` builds
`{'mergeMode': ...}`, then `Object.assign`s its `super.getConfig()` (which
is `Wrapper.getConfig`) onto it.  A configuration dictionary is embedded
as a partial map `String → Option V`; the value type `V` is kept abstract
because the merge under scrutiny never inspects values (the nested
`{className, config}` entry is one such opaque value). -/

/-- `Object.assign(target, source)`: every own key of `source` is copied
onto `target`, overwriting keys already present; keys only in `target`
survive. -/
def objectAssign {V : Type} (target source : String → Option V) : String → Option V :=
  fun k => match source k with
    | some v => some v
    | none => target k

/-- `Wrapper.getConfig` (source lines 119-129): starts from the
single-entry dictionary `{'layer': layerEntry}` (where `layerEntry` is the
nested `{className, config}` dictionary, treated as an opaque value) and
`Object.assign`s the generic base-layer config onto it. -/
def wrapperGetConfig {V : Type} (layerEntry : V) (baseConfig : String → Option V) :
    String → Option V :=
  objectAssign (fun k => if k = "layer" then some layerEntry else none) baseConfig

/-- `Bidirectional.getConfig` (source lines 550-558): starts from
`{'mergeMode': mergeModeEntry}` and `Object.assign`s `super.getConfig()`
— i.e. the result of `wrapperGetConfig` — onto it. -/
def bidirectionalGetConfig {V : Type} (mergeModeEntry layerEntry : V)
    (baseConfig : String → Option V) : String → Option V :=
  objectAssign (fun k => if k = "mergeMode" then some mergeModeEntry else none)
    (wrapperGetConfig layerEntry baseConfig)

/-! ## TimeDistributed -/

/-- `JSON.stringify` of a shape, as it appears in the `TimeDistributed.build`
error message: `[2,null]` style. -/
def jsonStringifyShape (s : Shape) : String :=
  "[" ++ String.intercalate "," (s.map fun d => match d with
    | none => "null"
    | some n => toString n) ++ "]"

/-- The mutable fields of a `TimeDistributed` wrapper that
`TimeDistributed.build` touches: its own `inputSpec` and `built` flag, the
inner layer's `built` flag, and (for observability) the shape the inner
layer was built with. -/
structure TimeDistributedState where
  inputSpec : List Shape
  layerBuilt : Bool
  layerBuildShape : Option Shape
  built : Bool
deriving DecidableEq, Repr

/-- `TimeDistributed.build` (source lines 195-209).  A thrown `ValueError`
is embedded as `(unchanged state, some message)`; normal termination as
`(new state, none)`.  The shape check precedes every mutation, exactly as
in the source. -/
def timeDistributedBuild (st : TimeDistributedState) (inputShape : Shape) :
    TimeDistributedState × Option String :=
  if inputShape.length < 3 then
    (st, some ("TimeDistributed layer expects an input shape >= 3D, but received " ++
      "input shape " ++ jsonStringifyShape inputShape))
  else
    let childInputShape := inputShape.take 1 ++ inputShape.drop 2
    let st1 := { st with inputSpec := [inputShape] }
    let st2 := if st1.layerBuilt then st1
      else { st1 with layerBuilt := true, layerBuildShape := some childInputShape }
    ({ st2 with built := true }, none)

/-- `TimeDistributed.computeOutputShape` (source lines 211-218), with the
inner layer's `computeOutputShape` abstracted as a function argument.
The source computes `childInputShape = [inputShape[0]].concat(inputShape.slice(2))`,
`timesteps = inputShape[1]` and returns
`[childOutputShape[0], timesteps].concat(childOutputShape.slice(1))`.
`none` corresponds to JavaScript out-of-range indexing (`undefined` dims),
which is unreachable for the rank ≥ 3 inputs the layer accepts and for
inner output shapes that keep a batch dimension. -/
def timeDistributedComputeOutputShape (childComputeOutputShape : Shape → Shape)
    (inputShape : Shape) : Option Shape :=
  match inputShape with
  | b :: t :: rest =>
    match childComputeOutputShape (b :: rest) with
    | c0 :: crest => some (c0 :: t :: crest)
    | [] => none
  | _ => none

/-! ## Bidirectional: construction -/

/-- A JavaScript value as it occurs in a layer configuration dictionary.
Accessing a missing key of a JS object yields `undefined`. -/
inductive JSVal where
  | bool : Bool → JSVal
  | num : Int → JSVal
  | str : String → JSVal
  | null : JSVal
  | undefined : JSVal
deriving DecidableEq, Repr

/-- A configuration dictionary as a total map: a missing key reads as
`JSVal.undefined`, matching JavaScript property access. -/
abbrev JSConfig := String → JSVal

/-- What the `Bidirectional` constructor stores about each clone it makes:
the class name and configuration it was deserialized from, the resulting
reverse-time-order flag, and the clone's name. -/
structure RNNClone where
  className : String
  config : JSConfig
  name : String
  goBackwards : Bool

/-- Modelled from the spec: the class registry's
`resolve(className, config) -> LayerInstance` used for cloning
(`deserialize` in the source, defined outside this file), producing an RNN
whose reverse-time-order flag is read from the configuration's
`goBackwards` entry (a boolean in any configuration an RNN emits; any
non-boolean reads as the default `false`) and whose name is read from the
configuration's `name` entry. -/
def deserializeRNN (className : String) (config : JSConfig) : RNNClone :=
  { className := className
    config := config
    name := match config "name" with
      | JSVal.str s => s
      | _ => ""
    goBackwards := match config "goBackwards" with
      | JSVal.bool b => b
      | _ => false }

/-- The supplied layer (`config.layer`), seen through the operations the
`Bidirectional` constructor performs on it: `getConfig()`,
`getClassName()`, and reads of `stateful`, `returnSequences`,
`returnState`, `inputSpec` (and, never read by the constructor, its own
`trainable` flag). -/
structure SuppliedRNN where
  className : String
  getConfigResult : JSConfig
  stateful : Bool
  returnSequences : Bool
  returnState : Bool
  trainable : Bool
  inputSpec : List Shape

/-- The fields a successfully constructed `Bidirectional` instance holds. -/
structure BidiInstance where
  forwardLayer : RNNClone
  backwardLayer : RNNClone
  mergeMode : Option String
  stateful : Bool
  returnSequences : Bool
  returnState : Bool
  trainableFlag : Bool
  inputSpec : List Shape
  numConstants : Option Nat

/-- An exception thrown by the constructor, together with the values of
`this.forwardLayer` / `this.backwardLayer` at the moment of the throw
(`none` = still unassigned). -/
structure BidiConstructError where
  message : String
  forwardLayer : Option RNNClone
  backwardLayer : Option RNNClone

/-- `VALID_BIDIRECTIONAL_MERGE_MODES` (source line 244). -/
def VALID_BIDIRECTIONAL_MERGE_MODES : List String := ["sum", "mul", "concat", "ave"]

/-- `checkBidirectionalMergeMode` (source lines 245-248).  Modelled from
the spec: the delegated `generic_utils.checkStringTypeUnionValue` (defined
outside this file) accepts `null`/`undefined` and every member of the
enumeration, and throws a `ValueError` for any other string.  Returns
`some message` for a throw, `none` for normal return. -/
def checkBidirectionalMergeMode (value : Option String) : Option String :=
  match value with
  | none => none
  | some s =>
    if VALID_BIDIRECTIONAL_MERGE_MODES.contains s then none
    else some (s ++ " is not a valid BidirectionalMergeMode.")

/-- The `Bidirectional` constructor (source lines 274-311), after
`super(config)`.  Steps, in source order: clone the supplied layer into
`forwardLayer` from its `getConfig()` output; flip the configuration's
`goBackwards` entry (`=== true ? false : true`) and clone again into
`backwardLayer`; attach the name prefixes; validate `mergeMode`; reject a
`weights` option; initialize the remaining fields, `trainableFlag`
(`this._trainable`) unconditionally to `true`.  A throw carries the clone
fields as they stand at that moment. -/
def bidirectionalConstructor (layer : SuppliedRNN) (mergeMode : Option String)
    (weights : Option (List Int)) : Except BidiConstructError BidiInstance :=
  let layerConfig := layer.getConfigResult
  let fwd0 := deserializeRNN layer.className layerConfig
  let layerConfig2 : JSConfig := fun k =>
    if k = "goBackwards" then
      if layerConfig "goBackwards" = JSVal.bool true then JSVal.bool false
      else JSVal.bool true
    else layerConfig k
  let bwd0 := deserializeRNN layer.className layerConfig2
  let fwd := { fwd0 with name := "forward_" ++ fwd0.name }
  let bwd := { bwd0 with name := "backward_" ++ bwd0.name }
  match checkBidirectionalMergeMode mergeMode with
  | some msg =>
    Except.error { message := msg, forwardLayer := some fwd, backwardLayer := some bwd }
  | none =>
    if weights.isSome then
      Except.error
        { message := "weights support is not implemented for Bidirectional layer yet."
          forwardLayer := some fwd
          backwardLayer := some bwd }
    else
      Except.ok
        { forwardLayer := fwd
          backwardLayer := bwd
          mergeMode := mergeMode
          stateful := layer.stateful
          returnSequences := layer.returnSequences
          returnState := layer.returnState
          trainableFlag := true
          inputSpec := layer.inputSpec
          numConstants := none }

/-- The `Bidirectional` `trainable` getter (source lines 313-315):
`return this._trainable;`. -/
def bidirectionalGetTrainable (b : BidiInstance) : Bool :=
  b.trainableFlag

/-- Projects the error payload out of a constructor result. -/
def exceptError {ε α : Type} : Except ε α → Option ε
  | Except.error e => some e
  | Except.ok _ => none

/-! ## Bidirectional: call -/

/-- The `kwargs` object as `Bidirectional.call` reads and writes it: the
`mask` and `initialState` entries (every other entry is passed through
untouched and is irrelevant to the embedded computation).  `T` is the
tensor type. -/
structure Kwargs (T : Type) where
  mask : Option T
  initialState : Option (List T)
deriving DecidableEq, Repr

/-- The state-splitting core of `Bidirectional.call` (source lines
460-481), with the two clones' `call` methods abstracted as function
arguments `forwardCall` / `backwardCall` (tensor output type `O`).
Faithful to the source: with a non-null `initialState` the backward-half
output `yRev` is produced by `forwardCall` — line 479 reads
`this.forwardLayer.call`, not `this.backwardLayer.call` — and the two
`Object.assign(kwargs, {initialState: ...})` calls mutate the caller's
`kwargs` object in place, so the returned `Kwargs` is the caller's object
as it stands after the call.  JavaScript `slice(0, n/2)` / `slice(n/2)`
truncate the fractional index toward zero, which is `Nat` division.
Returns `(y, yRev, kwargs after the call)`. -/
def bidirectionalCallCore {T O : Type} (forwardCall backwardCall : T → Kwargs T → O)
    (inputs : T) (kwargs : Kwargs T) : Except String (O × O × Kwargs T) :=
  if kwargs.mask.isSome then
    Except.error "The support for masking is not implemented for Bidirectional layers yet."
  else
    match kwargs.initialState with
    | none =>
      Except.ok (forwardCall inputs kwargs, backwardCall inputs kwargs, kwargs)
    | some initialState =>
      let forwardState := initialState.take (initialState.length / 2)
      let backwardState := initialState.drop (initialState.length / 2)
      let kwargs1 := { kwargs with initialState := some forwardState }
      let y := forwardCall inputs kwargs1
      let kwargs2 := { kwargs1 with initialState := some backwardState }
      let yRev := forwardCall inputs kwargs2
      Except.ok (y, yRev, kwargs2)

/-! ## Bidirectional: apply (symbolic initial states) -/

/-- An `InputSpec`, built in `apply` as `new InputSpec({shape: state.shape})`. -/
structure InputSpecT where
  shape : Shape
deriving DecidableEq, Repr

/-- A symbolic tensor: a shape-only placeholder. -/
structure SymTensor where
  shape : Shape
deriving DecidableEq, Repr

/-- The fields of the wrapper that `Bidirectional.apply` reads or writes:
its own declared `inputSpec` and the two clones' `stateSpec`s (`none` =
not yet assigned). -/
structure BidiApplyState where
  inputSpec : List InputSpecT
  forwardStateSpec : Option (List InputSpecT)
  backwardStateSpec : Option (List InputSpecT)
deriving DecidableEq, Repr

/-- `Bidirectional.apply` (source lines 378-458) on the symbolic path of
the claims: a single (symbolic) input tensor, an `initialState` list of
symbolic placeholders carried in `kwargs`, and `constants` null, so
`standardizeArgs` returns its arguments unchanged and the
`instanceof SymbolicTensor` homogeneity check passes.  `superApply`
abstracts `super.apply`, which reads the wrapper's state (in particular
`this.inputSpec`) as it stands at the moment of the call — hence it
receives the intermediate state — together with the full positional input
list.  Source order: empty/absent state falls through to a plain
`super.apply`; an odd-length state list throws a `ValueError`; otherwise
the clones' `stateSpec`s are assigned, `this.inputSpec` is widened to
`original ++ stateSpecs`, `super.apply` runs on `[inputs, ...states]`,
and `this.inputSpec` is written back to the saved original. -/
def bidirectionalApplySymbolic {O : Type} (superApply : BidiApplyState → List SymTensor → O)
    (st : BidiApplyState) (inputs : SymTensor) (initialState : List SymTensor) :
    Except String (O × BidiApplyState) :=
  if initialState.length = 0 then
    Except.ok (superApply st [inputs], st)
  else if initialState.length % 2 ≠ 0 then
    Except.error ("When passing `initialState` to a Bidrectional RNN, the state should " ++
      "be an Array containing the states of the underlying RNNs.")
  else
    let numStates := initialState.length
    let stateSpecs := initialState.map (fun s => InputSpecT.mk s.shape)
    let st1 := { st with
      forwardStateSpec := some (stateSpecs.take (numStates / 2))
      backwardStateSpec := some (stateSpecs.drop (numStates / 2)) }
    let fullInput := inputs :: initialState
    let originalInputSpec := st1.inputSpec
    let stWide := { st1 with inputSpec := st1.inputSpec ++ stateSpecs }
    let output := superApply stWide fullInput
    let stRestored := { stWide with inputSpec := originalInputSpec }
    Except.ok (output, stRestored)

/-! ## Bidirectional: weights -/

/-- Modelled from the spec: the external base `Layer`'s weight container,
reduced to its list of weight values (weight values stand in as `Int`;
their numeric type plays no role in the list algebra under scrutiny). -/
structure WeightedLayer where
  weights : List Int
deriving DecidableEq, Repr

/-- Modelled from the spec: the external `Layer.setWeights` (defined
outside this file) replaces the layer's weight values with the supplied
ones and signals a `ValueError` when the supplied count is incompatible
with the layer's own weight count. -/
def layerSetWeights (l : WeightedLayer) (ws : List Int) : Except String WeightedLayer :=
  if ws.length = l.weights.length then Except.ok { weights := ws }
  else Except.error "Mismatch in the number of weights provided."

/-- Modelled from the spec: the external `Layer.getWeights` returns the
layer's weight values. -/
def layerGetWeights (l : WeightedLayer) : List Int :=
  l.weights

/-- `Bidirectional.getWeights` (source lines 330-333): forward clone's
weights concatenated with the backward clone's. -/
def bidirectionalGetWeights (fwd bwd : WeightedLayer) : List Int :=
  layerGetWeights fwd ++ layerGetWeights bwd

/-- `Bidirectional.setWeights` (source lines 335-340): splits the incoming
flat list at `Math.floor(length / 2)`, gives the first part to the forward
clone and the remainder to the backward clone, in that order. -/
def bidirectionalSetWeights (fwd bwd : WeightedLayer) (weights : List Int) :
    Except String (WeightedLayer × WeightedLayer) :=
  let numWeights := weights.length
  let numeightsOver2 := numWeights / 2
  match layerSetWeights fwd (weights.take numeightsOver2) with
  | Except.error e => Except.error e
  | Except.ok f =>
    match layerSetWeights bwd (weights.drop numeightsOver2) with
    | Except.error e => Except.error e
    | Except.ok b => Except.ok (f, b)

/-! ## Concrete sample layers for witnesses and counterexamples -/

/-- A sample supplied RNN layer with an empty configuration. -/
def demoSuppliedRNN : SuppliedRNN :=
  { className := "SimpleRNN"
    getConfigResult := fun _ => JSVal.undefined
    stateful := false
    returnSequences := false
    returnState := false
    trainable := true
    inputSpec := [] }

/-- A sample supplied RNN layer whose configuration carries
`goBackwards: true` and whose own `trainable` flag is `false`. -/
def demoReversedUntrainableRNN : SuppliedRNN :=
  { className := "SimpleRNN"
    getConfigResult := fun k => if k = "goBackwards" then JSVal.bool true else JSVal.undefined
    stateful := false
    returnSequences := false
    returnState := false
    trainable := false
    inputSpec := [] }

/-! ## Theorems -/

/-- Claim C5: for every input shape `[b, t, f1, ..., fk]` of rank ≥ 3 and
every inner layer, `TimeDistributed.computeOutputShape` equals the inner
layer's output shape on the per-step shape `[b, f1, ..., fk]` with the
time-axis length `t` reinserted at position 1, for arbitrary inner output
rank: axis 1 of the result is `t`, axis 0 and the axes from 2 on are the
child output shape's axis 0 and axes from 1 on. -/
theorem timeDistributed_computeOutputShape_reinserts_time_axis
    (child : Shape → Shape) (b t : Option Int) (rest : Shape)
    (c0 : Option Int) (crest : Shape)
    (hc : child (b :: rest) = c0 :: crest) :
    timeDistributedComputeOutputShape child (b :: t :: rest) = some (c0 :: t :: crest) ∧
    (c0 :: t :: crest).get? 1 = some t ∧
    (c0 :: t :: crest).head? = (child (b :: rest)).head? ∧
    (c0 :: t :: crest).drop 2 = (child (b :: rest)).drop 1 := by
  simp [timeDistributedComputeOutputShape, hc]

/-- Witness for C5 at the inner layer `s ↦ s ++ [5]` and input shape
`[null, 7, 4]`. -/
theorem timeDistributed_computeOutputShape_reinserts_time_axis_witness :
    (fun (s : Shape) => s ++ [some 5]) ((none : Option Int) :: [some 4]) =
      (none : Option Int) :: [some 4, some 5] ∧
    (timeDistributedComputeOutputShape (fun (s : Shape) => s ++ [some 5])
        ((none : Option Int) :: some 7 :: [some 4]) =
      some ((none : Option Int) :: some 7 :: [some 4, some 5]) ∧
    ((none : Option Int) :: some 7 :: [some 4, some 5]).get? 1 = some (some 7) ∧
    ((none : Option Int) :: some 7 :: [some 4, some 5]).head? =
      ((fun (s : Shape) => s ++ [some 5]) ((none : Option Int) :: [some 4])).head? ∧
    ((none : Option Int) :: some 7 :: [some 4, some 5]).drop 2 =
      ((fun (s : Shape) => s ++ [some 5]) ((none : Option Int) :: [some 4])).drop 1) :=
  ⟨rfl, timeDistributed_computeOutputShape_reinserts_time_axis
    (fun s => s ++ [some 5]) none (some 7) [some 4] none [some 4, some 5] rfl⟩

/-- Claim C8: for every input shape of rank < 3, `TimeDistributed.build`
throws a `ValueError` whose message names the received shape, and leaves
the state untouched: the inner layer is not built and the wrapper is not
marked built. -/
theorem timeDistributed_build_rejects_rank_below_3
    (st : TimeDistributedState) (inputShape : Shape)
    (h : inputShape.length < 3) :
    timeDistributedBuild st inputShape =
      (st, some ("TimeDistributed layer expects an input shape >= 3D, but received " ++
        "input shape " ++ jsonStringifyShape inputShape)) := by
  simp [timeDistributedBuild, h]

/-- Witness for C8 at the rank-2 shape `[2, 8]` and a fresh state. -/
theorem timeDistributed_build_rejects_rank_below_3_witness :
    (([some 2, some 8] : Shape).length < 3) ∧
    timeDistributedBuild
        { inputSpec := [], layerBuilt := false, layerBuildShape := none, built := false }
        [some 2, some 8] =
      ({ inputSpec := [], layerBuilt := false, layerBuildShape := none, built := false },
        some ("TimeDistributed layer expects an input shape >= 3D, but received " ++
          "input shape " ++ jsonStringifyShape [some 2, some 8])) :=
  ⟨by decide, timeDistributed_build_rejects_rank_below_3
    { inputSpec := [], layerBuilt := false, layerBuildShape := none, built := false }
    [some 2, some 8] (by decide)⟩

/-- Counterexample to claim C3 as stated: when the generic base config
itself carries a `'layer'` entry, `Object.assign(config, baseConfig)` in
`Wrapper.getConfig` lets the base entry overwrite the wrapper-specific
`'layer'` entry, so the wrapper-specific entry is not kept intact. -/
theorem wrapper_getConfig_base_overwrites_layer_cx :
    wrapperGetConfig "wrapped-layer-entry"
        (fun k => if k = "layer" then some "base-entry" else none) "layer" =
      some "base-entry" ∧
    ("base-entry" : String) ≠ "wrapped-layer-entry" := by
  exact ⟨rfl, by decide⟩

/-- Claim C3 (amended): the wrapper-specific entries survive the merge
provided the generic base config has no entry of the same key — for every
base config with no `'layer'` and no `'mergeMode'` entry,
`Wrapper.getConfig` keeps the `'layer'` entry and `Bidirectional.getConfig`
keeps both `'mergeMode'` and `'layer'`; on a shared key the generic base
entry wins instead. -/
theorem wrapper_getConfig_keeps_specific_keys_of_disjoint_base {V : Type}
    (layerEntry mergeModeEntry : V) (base : String → Option V)
    (hL : base "layer" = none) (hM : base "mergeMode" = none) :
    wrapperGetConfig layerEntry base "layer" = some layerEntry ∧
    bidirectionalGetConfig mergeModeEntry layerEntry base "mergeMode" = some mergeModeEntry ∧
    bidirectionalGetConfig mergeModeEntry layerEntry base "layer" = some layerEntry := by
  refine ⟨?_, ?_, ?_⟩ <;>
    simp [wrapperGetConfig, bidirectionalGetConfig, objectAssign, hL, hM]

/-- Witness for C3 (amended) at an empty base config and numeric entries. -/
theorem wrapper_getConfig_keeps_specific_keys_of_disjoint_base_witness :
    ((fun _ => (none : Option Nat)) "layer" = none) ∧
    ((fun _ => (none : Option Nat)) "mergeMode" = none) ∧
    (wrapperGetConfig 10 (fun _ => (none : Option Nat)) "layer" = some 10 ∧
     bidirectionalGetConfig 20 10 (fun _ => (none : Option Nat)) "mergeMode" = some 20 ∧
     bidirectionalGetConfig 20 10 (fun _ => (none : Option Nat)) "layer" = some 10) :=
  ⟨rfl, rfl, wrapper_getConfig_keeps_specific_keys_of_disjoint_base 10 20
    (fun _ => none) rfl rfl⟩

/-- Claim C7: for every flat weight list whose length is even, equals the
two clones' combined weight count, and (as holds for the structurally
identical clones) splits into equal per-clone counts,
`Bidirectional.setWeights` succeeds — first ⌊n/2⌋ entries to the forward
clone, remainder to the backward clone — and `Bidirectional.getWeights`
(forward then backward) returns the same flat list. -/
theorem bidirectional_set_get_weights_roundtrip
    (fwd bwd : WeightedLayer) (w : List Int)
    (hlen : w.length = fwd.weights.length + bwd.weights.length)
    (heq : fwd.weights.length = bwd.weights.length)
    (hev : w.length % 2 = 0) :
    (bidirectionalSetWeights fwd bwd w).map
      (fun p => bidirectionalGetWeights p.1 p.2) = Except.ok w := by
  have htake : (w.take (w.length / 2)).length = fwd.weights.length := by
    rw [List.length_take]
    omega
  have hdrop : (w.drop (w.length / 2)).length = bwd.weights.length := by
    rw [List.length_drop]
    omega
  simp [bidirectionalSetWeights, layerSetWeights, htake, hdrop,
    bidirectionalGetWeights, layerGetWeights, Except.map, List.take_append_drop]

/-- Witness for C7 at clones with two weights each and the list
`[1, 2, 3, 4]`. -/
theorem bidirectional_set_get_weights_roundtrip_witness :
    (([1, 2, 3, 4] : List Int).length =
      ({ weights := [0, 0] } : WeightedLayer).weights.length +
      ({ weights := [9, 9] } : WeightedLayer).weights.length) ∧
    (({ weights := [0, 0] } : WeightedLayer).weights.length =
      ({ weights := [9, 9] } : WeightedLayer).weights.length) ∧
    (([1, 2, 3, 4] : List Int).length % 2 = 0) ∧
    (bidirectionalSetWeights { weights := [0, 0] } { weights := [9, 9] } [1, 2, 3, 4]).map
      (fun p => bidirectionalGetWeights p.1 p.2) = Except.ok [1, 2, 3, 4] :=
  ⟨by decide, by decide, by decide,
    bidirectional_set_get_weights_roundtrip
      { weights := [0, 0] } { weights := [9, 9] } [1, 2, 3, 4]
      (by decide) (by decide) (by decide)⟩

/-- Counterexample to claim C2 as stated: constructing `Bidirectional`
with the invalid merge mode `"xyz"` does fail, but at the point of failure
both the forward and the backward clone already exist — the constructor
clones the supplied layer twice before calling
`checkBidirectionalMergeMode`. -/
theorem bidirectional_invalid_mergeMode_clones_exist_cx :
    (exceptError (bidirectionalConstructor demoSuppliedRNN (some "xyz") none)).map
      (fun e => (e.forwardLayer.isSome, e.backwardLayer.isSome)) = some (true, true) :=
  rfl

/-- Claim C2 (amended): for every configuration whose `mergeMode` is a
string outside the enumeration of valid merge modes, constructing
`Bidirectional` fails with the merge-mode validation error (even when an
unsupported `weights` option is also present), but only after both clones
of the supplied layer have been created: at the point of failure the
forward and backward clones both exist. -/
theorem bidirectional_invalid_mergeMode_fails_after_clones
    (layer : SuppliedRNN) (s : String) (weights : Option (List Int))
    (h : VALID_BIDIRECTIONAL_MERGE_MODES.contains s = false) :
    (exceptError (bidirectionalConstructor layer (some s) weights)).map
      (fun e => (e.forwardLayer.isSome, e.backwardLayer.isSome, e.message)) =
      some (true, true, s ++ " is not a valid BidirectionalMergeMode.") := by
  have h' : ¬ s ∈ VALID_BIDIRECTIONAL_MERGE_MODES := by
    simpa using h
  simp [bidirectionalConstructor, checkBidirectionalMergeMode, h', exceptError]

/-- Witness for C2 (amended) at merge mode `"xyz"` with a `weights` option
also present: the merge-mode validation error wins. -/
theorem bidirectional_invalid_mergeMode_fails_after_clones_witness :
    (VALID_BIDIRECTIONAL_MERGE_MODES.contains "xyz" = false) ∧
    (exceptError (bidirectionalConstructor demoSuppliedRNN (some "xyz") (some [1]))).map
      (fun e => (e.forwardLayer.isSome, e.backwardLayer.isSome, e.message)) =
      some (true, true, "xyz" ++ " is not a valid BidirectionalMergeMode.") :=
  ⟨by decide, bidirectional_invalid_mergeMode_fails_after_clones
    demoSuppliedRNN "xyz" (some [1]) (by decide)⟩

/-- Claim C6: when construction succeeds, the backward clone was
deserialized from the supplied layer's configuration with `goBackwards`
replaced by the unconditional negation `=== true ? false : true` (so its
resulting flag is `false` exactly when the supplied configuration's entry
is the boolean `true`), while the forward clone was deserialized from the
supplied layer's configuration unchanged. -/
theorem bidirectional_backward_clone_flips_goBackwards
    (layer : SuppliedRNN) (mergeMode : Option String) (weights : Option (List Int))
    (hm : checkBidirectionalMergeMode mergeMode = none)
    (hw : weights = none) :
    (bidirectionalConstructor layer mergeMode weights).map
        (fun b => b.backwardLayer.config "goBackwards") =
      Except.ok (if layer.getConfigResult "goBackwards" = JSVal.bool true
        then JSVal.bool false else JSVal.bool true) ∧
    (bidirectionalConstructor layer mergeMode weights).map
        (fun b => b.backwardLayer.goBackwards) =
      Except.ok (if layer.getConfigResult "goBackwards" = JSVal.bool true
        then false else true) ∧
    (bidirectionalConstructor layer mergeMode weights).map
        (fun b => b.forwardLayer.config) =
      Except.ok layer.getConfigResult ∧
    (bidirectionalConstructor layer mergeMode weights).map
        (fun b => b.forwardLayer.className) =
      Except.ok layer.className := by
  subst hw
  by_cases hgb : layer.getConfigResult "goBackwards" = JSVal.bool true <;>
    refine ⟨?_, ?_, ?_, ?_⟩ <;>
      simp [bidirectionalConstructor, hm, deserializeRNN, Except.map, hgb]

/-- Witness for C6 at a supplied layer whose configuration carries
`goBackwards: true` and merge mode `"concat"`: the backward clone's flag
becomes `false`. -/
theorem bidirectional_backward_clone_flips_goBackwards_witness :
    (checkBidirectionalMergeMode (some "concat") = none) ∧
    ((none : Option (List Int)) = none) ∧
    ((bidirectionalConstructor demoReversedUntrainableRNN (some "concat") none).map
        (fun b => b.backwardLayer.config "goBackwards") =
      Except.ok (JSVal.bool false) ∧
    (bidirectionalConstructor demoReversedUntrainableRNN (some "concat") none).map
        (fun b => b.backwardLayer.goBackwards) =
      Except.ok false ∧
    (bidirectionalConstructor demoReversedUntrainableRNN (some "concat") none).map
        (fun b => b.forwardLayer.config) =
      Except.ok demoReversedUntrainableRNN.getConfigResult ∧
    (bidirectionalConstructor demoReversedUntrainableRNN (some "concat") none).map
        (fun b => b.forwardLayer.className) =
      Except.ok demoReversedUntrainableRNN.className) :=
  ⟨rfl, rfl, bidirectional_backward_clone_flips_goBackwards
    demoReversedUntrainableRNN (some "concat") none rfl rfl⟩

/-- Claim C10: whenever construction succeeds, the wrapper's private
trainable flag has been unconditionally initialized to `true` and the
`trainable` getter returns `true` — regardless of the supplied layer's own
`trainable` flag, which the constructor never reads. -/
theorem bidirectional_trainable_initialized_true
    (layer : SuppliedRNN) (mergeMode : Option String) (weights : Option (List Int))
    (hm : checkBidirectionalMergeMode mergeMode = none)
    (hw : weights = none) :
    (bidirectionalConstructor layer mergeMode weights).map bidirectionalGetTrainable =
      Except.ok true ∧
    (bidirectionalConstructor layer mergeMode weights).map
      (fun b => b.trainableFlag) = Except.ok true := by
  subst hw
  refine ⟨?_, ?_⟩ <;>
    simp [bidirectionalConstructor, hm, bidirectionalGetTrainable, Except.map]

/-- Witness for C10 at a supplied layer whose own `trainable` flag is
`false`: the wrapper's getter still returns `true`. -/
theorem bidirectional_trainable_initialized_true_witness :
    (checkBidirectionalMergeMode (some "concat") = none) ∧
    ((none : Option (List Int)) = none) ∧
    (demoReversedUntrainableRNN.trainable = false) ∧
    ((bidirectionalConstructor demoReversedUntrainableRNN (some "concat") none).map
        bidirectionalGetTrainable = Except.ok true ∧
    (bidirectionalConstructor demoReversedUntrainableRNN (some "concat") none).map
        (fun b => b.trainableFlag) = Except.ok true) :=
  ⟨rfl, rfl, rfl, bidirectional_trainable_initialized_true
    demoReversedUntrainableRNN (some "concat") none rfl rfl⟩

/-- Claim C1, evaluated at a failing input (recorded code bug): with a
supplied initial state `[1, 2]`, the forward output is the forward clone's
call on the first half, but the backward output is *also* produced by the
forward clone's call (on the second half) — source line 479 reads
`this.forwardLayer.call` where the claim, the spec and the surrounding
code (the `initialState == null` branch uses `this.backwardLayer.call`)
expect `this.backwardLayer.call`: the backward clone's result at that
point would differ. -/
theorem bidirectional_call_backward_output_uses_forward_layer :
    bidirectionalCallCore
        (fun (_ : Nat) (kw : Kwargs Nat) => ("fwd", kw.initialState))
        (fun (_ : Nat) (kw : Kwargs Nat) => ("bwd", kw.initialState))
        0 { mask := none, initialState := some [1, 2] } =
      Except.ok (("fwd", some [1]), ("fwd", some [2]),
        { mask := none, initialState := some [2] }) ∧
    (("fwd", some [2]) : String × Option (List Nat)) ≠
      (fun (_ : Nat) (kw : Kwargs Nat) => ("bwd", kw.initialState)) 0
        { mask := none, initialState := some [2] } :=
  ⟨rfl, by decide⟩

/-- Counterexample to claim C9 as stated: with the singleton initial
state `[5]`, the in-place merges still happen, but the backward half
`slice(⌊1/2⌋) = [5]` is the whole list, so after the call
`kwargs['initialState']` still equals the supplied combined list —
the claim's "no longer equals the supplied combined list" fails. -/
theorem bidirectional_call_kwargs_singleton_state_cx :
    bidirectionalCallCore
        (fun (_ : Nat) (kw : Kwargs Nat) => kw.initialState)
        (fun (_ : Nat) (kw : Kwargs Nat) => kw.initialState)
        0 { mask := none, initialState := some [5] } =
      Except.ok (some [], some [5], { mask := none, initialState := some [5] }) :=
  rfl

/-- Claim C9 (amended): for every `Bidirectional.call` whose kwargs carry
a non-null `initialState` list (and no mask), the caller's kwargs object
is merged in place first with the forward half and then with the backward
half, so after the call `kwargs['initialState']` equals the backward half
(the elements from index ⌊n/2⌋ on) — which differs from the supplied
combined list whenever that list has at least two elements. -/
theorem bidirectional_call_mutates_kwargs_to_backward_half
    {T O : Type} (forwardCall backwardCall : T → Kwargs T → O)
    (inputs : T) (kwargs : Kwargs T) (st : List T)
    (hmask : kwargs.mask = none) (hst : kwargs.initialState = some st) :
    bidirectionalCallCore forwardCall backwardCall inputs kwargs =
      Except.ok
        (forwardCall inputs { kwargs with initialState := some (st.take (st.length / 2)) },
         forwardCall inputs { kwargs with initialState := some (st.drop (st.length / 2)) },
         { kwargs with initialState := some (st.drop (st.length / 2)) }) ∧
    (2 ≤ st.length → some (st.drop (st.length / 2)) ≠ some st) := by
  constructor
  · simp [bidirectionalCallCore, hmask, hst]
  · intro h2 hEq
    have hlen : (st.drop (st.length / 2)).length = st.length := by
      rw [Option.some_inj.mp hEq]
    rw [List.length_drop] at hlen
    omega

/-- Witness for C9 (amended) at the initial state `[1, 2]`: afterwards the
kwargs carry `[2]`, which differs from `[1, 2]`. -/
theorem bidirectional_call_mutates_kwargs_to_backward_half_witness :
    (({ mask := none, initialState := some [1, 2] } : Kwargs Nat).mask = none) ∧
    (({ mask := none, initialState := some [1, 2] } : Kwargs Nat).initialState =
      some [1, 2]) ∧
    (bidirectionalCallCore
        (fun (_ : Nat) (kw : Kwargs Nat) => kw.initialState)
        (fun (_ : Nat) (kw : Kwargs Nat) => kw.initialState)
        3 { mask := none, initialState := some [1, 2] } =
      Except.ok (some [1], some [2], { mask := none, initialState := some [2] }) ∧
    (2 ≤ ([1, 2] : List Nat).length → some (([1, 2] : List Nat).drop 1) ≠ some [1, 2])) :=
  ⟨rfl, rfl, bidirectional_call_mutates_kwargs_to_backward_half
    (fun _ kw => kw.initialState) (fun _ kw => kw.initialState)
    3 { mask := none, initialState := some [1, 2] } [1, 2] rfl rfl⟩

/-- Claim C4: for every `Bidirectional.apply` whose (non-empty,
even-length) additional initial-state inputs are symbolic placeholders,
the underlying `super.apply` runs against the wrapper state whose declared
input specification is the original one widened with the state specs, and
the state returned after the call carries the original input specification
again (while the clones' state-spec assignments persist). -/
theorem bidirectional_apply_restores_inputSpec
    {O : Type} (superApply : BidiApplyState → List SymTensor → O)
    (st : BidiApplyState) (inputs : SymTensor) (initialState : List SymTensor)
    (hne : initialState.length ≠ 0) (hev : initialState.length % 2 = 0) :
    bidirectionalApplySymbolic superApply st inputs initialState =
      Except.ok
        (superApply
          { inputSpec := st.inputSpec ++ initialState.map (fun s => InputSpecT.mk s.shape)
            forwardStateSpec := some ((initialState.map (fun s => InputSpecT.mk s.shape)).take
              (initialState.length / 2))
            backwardStateSpec := some ((initialState.map (fun s => InputSpecT.mk s.shape)).drop
              (initialState.length / 2)) }
          (inputs :: initialState),
         { inputSpec := st.inputSpec
           forwardStateSpec := some ((initialState.map (fun s => InputSpecT.mk s.shape)).take
             (initialState.length / 2))
           backwardStateSpec := some ((initialState.map (fun s => InputSpecT.mk s.shape)).drop
             (initialState.length / 2)) }) := by
  simp [bidirectionalApplySymbolic, hne, hev]

/-- Witness for C4 at a two-state symbolic call: the underlying apply sees
the widened spec and the returned state carries the original spec. -/
theorem bidirectional_apply_restores_inputSpec_witness :
    (([SymTensor.mk [some 2], SymTensor.mk [some 3]] : List SymTensor).length ≠ 0) ∧
    (([SymTensor.mk [some 2], SymTensor.mk [some 3]] : List SymTensor).length % 2 = 0) ∧
    bidirectionalApplySymbolic
        (fun (s : BidiApplyState) (inp : List SymTensor) => (s, inp))
        { inputSpec := [InputSpecT.mk [some 1]], forwardStateSpec := none,
          backwardStateSpec := none }
        (SymTensor.mk [some 9])
        [SymTensor.mk [some 2], SymTensor.mk [some 3]] =
      Except.ok
        (({ inputSpec := [InputSpecT.mk [some 1], InputSpecT.mk [some 2],
              InputSpecT.mk [some 3]]
            forwardStateSpec := some [InputSpecT.mk [some 2]]
            backwardStateSpec := some [InputSpecT.mk [some 3]] },
          [SymTensor.mk [some 9], SymTensor.mk [some 2], SymTensor.mk [some 3]]),
         { inputSpec := [InputSpecT.mk [some 1]]
           forwardStateSpec := some [InputSpecT.mk [some 2]]
           backwardStateSpec := some [InputSpecT.mk [some 3]] }) :=
  ⟨by decide, by decide, bidirectional_apply_restores_inputSpec
    (fun s inp => (s, inp))
    { inputSpec := [InputSpecT.mk [some 1]], forwardStateSpec := none,
      backwardStateSpec := none }
    (SymTensor.mk [some 9])
    [SymTensor.mk [some 2], SymTensor.mk [some 3]]
    (by decide) (by decide)⟩

end Tfjs
